import Mathlib

/-!
Shallow embedding of the document-management storage core
(`src/backend/src/services/document.service.ts`,
`src/backend/src/services/s3.service.ts`,
`src/backend/src/config/base.config.ts`).

Byte buffers are modelled as `List Nat`; all content values are kept as
byte lists (the code's UTF-8 encode/decode round trips are a fixed
bijection applied on both sides, so equality of text is equality of the
underlying bytes).  External stores (the filesystem, the S3 bucket, the
MongoDB document collection) are association lists / record lists inside
an explicit `SysState`, and every operation returns the resulting state
together with an `Except String` result, mirroring the thrown `Error`
messages of the TypeScript code.  JavaScript truthiness of optional
strings (`if (document.path)`) is modelled by `strTruthy`: absent or
empty strings are falsy, while a present `Buffer` object is always
truthy (`Option.isSome`).
-/

namespace DMS

/-- Byte buffers (Node `Buffer`) as lists of byte values. -/
abbrev Bytes := List Nat

/-- The `BaseConfig.STORAGE_TYPE` values: `'filesystem' | 'mongodb' | 's3'`. -/
inductive StorageType where
  | filesystem
  | mongodb
  | s3
deriving DecidableEq, Repr

/-- The persisted document record.  Modelled from the spec: the entity
declaration (`src/backend/src/entity/Document.ts`) is not in the sources,
but its fields (`id`, `name`, `path`, `buffer`, `s3Key`, `createdAt`)
are fixed by their uses in `document.service.ts` and by spec section 3:
id and timestamps are assigned by the metadata store on save, locator
fields start unset. -/
structure Document where
  id : String := ""
  name : String := ""
  path : Option String := none
  buffer : Option Bytes := none
  s3Key : Option String := none
  createdAt : Nat := 0
deriving DecidableEq, Repr

/-- The external world threaded through every operation: the local
filesystem, the remote S3 bucket (with a transport-health flag), the
metadata record store, the store's id counter, the clock (`Date.now()`)
and the pending `Math.random()` string for key generation. -/
structure SysState where
  fsStore : List (String × Bytes) := []
  s3Store : List (String × Bytes) := []
  s3Ok : Bool := true
  repo : List Document := []
  nextId : Nat := 0
  now : Nat := 0
  rand : String := ""
deriving DecidableEq, Repr

/-- Association-list lookup for the modelled stores. -/
def lookupStore : List (String × Bytes) → String → Option Bytes
  | [], _ => none
  | (k, v) :: rest, key => if k = key then some v else lookupStore rest key

/-- Remove every binding of a key from a modelled store. -/
def removeKey (store : List (String × Bytes)) (key : String) : List (String × Bytes) :=
  store.filter (fun kv => kv.1 ≠ key)

/-- JavaScript truthiness of an optional string: `undefined` and `''`
are falsy, any non-empty string is truthy. -/
def strTruthy : Option String → Bool
  | none => false
  | some str => !str.data.isEmpty

/-- A modelled underlying transport-error message from the AWS SDK. -/
def s3TransportErr : String := "NetworkingError"

/-- Embeds `fs.readFile(path)`: succeeds with the file's bytes when the
path exists, otherwise rejects (ENOENT). -/
def fsReadFile (s : SysState) (p : String) : Except String Bytes :=
  match lookupStore s.fsStore p with
  | some b => Except.ok b
  | none => Except.error ("ENOENT: no such file or directory, open " ++ p)

/-- Embeds `S3Service.uploadFile`: on a healthy transport stores the body
under the key; a remote failure is wrapped as
`Failed to upload file to S3: ...` (s3.service.ts lines 30-47). -/
def s3UploadFile (s : SysState) (key : String) (body : Bytes) :
    SysState × Except String String :=
  if s.s3Ok then
    ({ s with s3Store := (key, body) :: removeKey s.s3Store key }, Except.ok key)
  else
    (s, Except.error ("Failed to upload file to S3: " ++ s3TransportErr))

/-- Embeds `S3Service.downloadFile`: returns the stored bytes, wrapping
any failure as `Failed to download file from S3: ...`
(s3.service.ts lines 53-80). -/
def s3DownloadFile (s : SysState) (key : String) :
    SysState × Except String Bytes :=
  if s.s3Ok then
    match lookupStore s.s3Store key with
    | some b => (s, Except.ok b)
    | none => (s, Except.error ("Failed to download file from S3: NoSuchKey"))
  else
    (s, Except.error ("Failed to download file from S3: " ++ s3TransportErr))

/-- Embeds `S3Service.deleteFile`: removes the object on a healthy
transport; a remote failure is wrapped as
`Failed to delete file from S3: ...` (s3.service.ts lines 86-99). -/
def s3DeleteFile (s : SysState) (key : String) :
    SysState × Except String Unit :=
  if s.s3Ok then
    ({ s with s3Store := removeKey s.s3Store key }, Except.ok ())
  else
    (s, Except.error ("Failed to delete file from S3: " ++ s3TransportErr))

/-- The character class kept by `originalName.replace(/[^a-zA-Z0-9.-]/g, '_')`. -/
def isAllowedKeyChar (c : Char) : Bool :=
  c.isAlpha || c.isDigit || c == '.' || c == '-'

/-- One step of the sanitizing replace: disallowed characters become `'_'`. -/
def sanitizeChar (c : Char) : Char :=
  if isAllowedKeyChar c then c else '_'

/-- The sanitized filename used inside a generated S3 key. -/
def sanitizeName (name : String) : String :=
  String.mk (name.data.map sanitizeChar)

/-- Embeds `S3Service.generateS3Key` (s3.service.ts lines 106-111) with
the environment's `Date.now()` and `Math.random()` values passed
explicitly: `documents/<timestamp>-<randomString>-<sanitizedName>`. -/
def generateS3KeyAt (timestamp : Nat) (randomString : String) (originalName : String) :
    String :=
  "documents/" ++ toString timestamp ++ "-" ++ randomString ++ "-" ++
    sanitizeName originalName

/-- Hexadecimal digit characters for modelled ObjectIds. -/
def hexDigitChar : Nat → Char
  | 0 => '0'
  | 1 => '1'
  | 2 => '2'
  | 3 => '3'
  | 4 => '4'
  | 5 => '5'
  | 6 => '6'
  | 7 => '7'
  | 8 => '8'
  | 9 => '9'
  | 10 => 'a'
  | 11 => 'b'
  | 12 => 'c'
  | 13 => 'd'
  | 14 => 'e'
  | _ => 'f'

/-- Recognizes a lowercase hexadecimal digit. -/
def isHexChar (c : Char) : Bool :=
  c.isDigit || (decide (97 ≤ c.toNat) && decide (c.toNat ≤ 102))

/-- The 24-hex-character ObjectId string the metadata store assigns to
the n-th inserted record. -/
def objectIdOfNat (n : Nat) : String :=
  String.mk ((List.range 24).map (fun i => hexDigitChar (n / 16 ^ (23 - i) % 16)))

/-- Validity of an id string for `new ObjectId(id)`: 24 hex characters.
An invalid string makes the constructor throw, which
`getDocumentById` catches and turns into `null`. -/
def isValidObjectId (id : String) : Bool :=
  id.length == 24 && id.data.all isHexChar

/-- Embeds `documentRepo.save`: the store assigns the id and the
creation timestamp and appends the record (spec section 4.3 `insert`). -/
def saveDoc (s : SysState) (d : Document) : SysState × Document :=
  let saved := { d with id := objectIdOfNat s.nextId, createdAt := s.now }
  ({ s with repo := s.repo ++ [saved], nextId := s.nextId + 1 }, saved)

/-- First record in the collection with the given id, if any. -/
def findDocById : List Document → String → Option Document
  | [], _ => none
  | d :: rest, id => if d.id = id then some d else findDocById rest id

/-- Embeds `DocumentService.getDocumentById` (document.service.ts lines
70-90): a malformed id makes `new ObjectId` throw, the catch returns
`null`; otherwise the record is looked up by `_id`. -/
def getDocumentById (s : SysState) (id : String) : Option Document :=
  if isValidObjectId id then findDocById s.repo id else none

/-- The `order: createdAt DESC` ordering requested from the record
store: a record comes before another when it was created no earlier. -/
def byNewest (a b : Document) : Prop := b.createdAt ≤ a.createdAt

instance : DecidableRel byNewest := fun a b => Nat.decLe b.createdAt a.createdAt

instance : IsTotal Document byNewest := ⟨fun a b => Nat.le_total b.createdAt a.createdAt⟩

instance : IsTrans Document byNewest := ⟨fun _ _ _ h1 h2 => Nat.le_trans h2 h1⟩

/-- Embeds `DocumentService.getAllDocuments` (document.service.ts lines
92-99).  Modelled from the spec: the sort itself is performed by the
external record store, which the service asks for
`order: createdAt DESC`; spec sections 4.3 and 6 fix the contract as
newest-first with insertion-order tie-breaking, i.e. a stable sort by
descending `createdAt`. -/
def getAllDocuments (s : SysState) : List Document :=
  List.insertionSort byNewest s.repo

/-- The buffer-resolution prelude shared by the S3 and MongoDB branches
of `createDocument`: an explicit `fileBuffer` wins, else a truthy `path`
is read from disk, else the branch's usage error is thrown. -/
def resolveUploadBytes (s : SysState) (path : Option String) (fileBuffer : Option Bytes)
    (missingMsg : String) : Except String Bytes :=
  match fileBuffer with
  | some b => Except.ok b
  | none =>
    match path with
    | some p => if p.data.isEmpty then Except.error missingMsg else fsReadFile s p
    | none => Except.error missingMsg

/-- Embeds `DocumentService.createDocument` (document.service.ts lines
21-68): branch on the configured storage type, persist content
accordingly, then save the metadata record. -/
def createDocument (cfg : StorageType) (s : SysState) (name : String)
    (path : Option String) (fileBuffer : Option Bytes) :
    SysState × Except String Document :=
  match cfg with
  | StorageType.s3 =>
    match resolveUploadBytes s path fileBuffer
        "Either path or fileBuffer must be provided for S3 storage" with
    | Except.error e => (s, Except.error e)
    | Except.ok buffer =>
      let key := generateS3KeyAt s.now s.rand name
      match s3UploadFile s key buffer with
      | (s1, Except.error e) => (s1, Except.error e)
      | (s1, Except.ok _) =>
        let res := saveDoc s1 { name := name, s3Key := some key }
        (res.1, Except.ok res.2)
  | StorageType.mongodb =>
    match resolveUploadBytes s path fileBuffer
        "Either path or fileBuffer must be provided for MongoDB storage" with
    | Except.error e => (s, Except.error e)
    | Except.ok content =>
      let res := saveDoc s { name := name, buffer := some content }
      (res.1, Except.ok res.2)
  | StorageType.filesystem =>
    match path with
    | some p =>
      if p.data.isEmpty then
        (s, Except.error "Path must be provided for filesystem storage")
      else
        let res := saveDoc s { name := name, path := some p }
        (res.1, Except.ok res.2)
    | none => (s, Except.error "Path must be provided for filesystem storage")

/-- The message of the no-locator throw in `getDocumentContent`. -/
def noValidLocationMsg : String :=
  "Document has no valid storage location (s3Key, buffer, or path)"

/-- The content-resolution chain inside `getDocumentContent`'s try block
(document.service.ts lines 110-121): active-backend-gated S3 and buffer
branches, an ungated path branch, else the no-valid-location throw. -/
def retrieveContent (cfg : StorageType) (s : SysState) (document : Document) :
    SysState × Except String Bytes :=
  if cfg = StorageType.s3 ∧ strTruthy document.s3Key then
    s3DownloadFile s (document.s3Key.getD "")
  else if cfg = StorageType.mongodb ∧ document.buffer.isSome then
    (s, Except.ok (document.buffer.getD []))
  else if strTruthy document.path then
    (s, fsReadFile s (document.path.getD ""))
  else
    (s, Except.error noValidLocationMsg)

/-- Embeds `DocumentService.getDocumentContent` (document.service.ts
lines 101-130): load the record (`Document not found` when absent),
resolve content, and wrap any failure of the try block as
`Failed to read document content: ...`. -/
def getDocumentContent (cfg : StorageType) (s : SysState) (id : String) :
    SysState × Except String (Document × Bytes) :=
  match getDocumentById s id with
  | none => (s, Except.error "Document not found")
  | some document =>
    match retrieveContent cfg s document with
    | (s1, Except.ok content) => (s1, Except.ok (document, content))
    | (s1, Except.error e) =>
      (s1, Except.error ("Failed to read document content: " ++ e))

/-- The content-removal step inside `deleteDocument`'s try block
(document.service.ts lines 139-157): a remote S3 delete may fail (and
that failure propagates to the enclosing catch); the MongoDB branch does
nothing; a filesystem unlink failure is swallowed by the inner
try/catch, so that step always proceeds. -/
def removeContent (cfg : StorageType) (s : SysState) (document : Document) :
    SysState × Except String Unit :=
  if cfg = StorageType.s3 ∧ strTruthy document.s3Key then
    s3DeleteFile s (document.s3Key.getD "")
  else if cfg = StorageType.mongodb then
    (s, Except.ok ())
  else if strTruthy document.path then
    ({ s with fsStore := removeKey s.fsStore (document.path.getD "") }, Except.ok ())
  else
    (s, Except.ok ())

/-- Embeds `DocumentService.deleteDocument` (document.service.ts lines
132-166): load the record, attempt content removal, and only when that
step did not throw delete the metadata record; a thrown failure is
wrapped as `Failed to delete document: ...` and aborts before the
record delete. -/
def deleteDocument (cfg : StorageType) (s : SysState) (id : String) :
    SysState × Except String Unit :=
  match getDocumentById s id with
  | none => (s, Except.error "Document not found")
  | some document =>
    match removeContent cfg s document with
    | (s1, Except.error e) =>
      (s1, Except.error ("Failed to delete document: " ++ e))
    | (s1, Except.ok _) =>
      ({ s1 with repo := s1.repo.filter (fun d => d.id != document.id) }, Except.ok ())

/-- The content a client supplied to `createDocument`, as required by
the active backend: for S3 and MongoDB an explicit buffer wins, else the
bytes of the file at the given path; for Filesystem the content is the
file already materialized at the path. -/
def suppliedContent (cfg : StorageType) (s : SysState) (path : Option String)
    (fileBuffer : Option Bytes) : Option Bytes :=
  match cfg with
  | StorageType.filesystem =>
    match path with
    | some p => lookupStore s.fsStore p
    | none => none
  | _ =>
    match fileBuffer with
    | some b => some b
    | none =>
      match path with
      | some p => lookupStore s.fsStore p
      | none => none

/-- Number of populated locator fields on a record. -/
def locatorCount (d : Document) : Nat :=
  (if d.path.isSome then 1 else 0) + (if d.buffer.isSome then 1 else 0) +
    (if d.s3Key.isSome then 1 else 0)

/-! ### Basic lemmas about the modelled stores and helpers -/

theorem data_append (a b : String) : (a ++ b).data = a.data ++ b.data := rfl

theorem lookupStore_cons_self (st : List (String × Bytes)) (k : String) (v : Bytes) :
    lookupStore ((k, v) :: st) k = some v := by
  simp [lookupStore]

theorem lookupStore_removeKey_self (st : List (String × Bytes)) (k : String) :
    lookupStore (removeKey st k) k = none := by
  induction st with
  | nil => rfl
  | cons kv rest ih =>
    by_cases h : kv.1 = k
    · simpa [removeKey, h] using ih
    · simpa [removeKey, lookupStore, h] using ih

theorem isHexChar_hexDigitChar : ∀ m : Nat, isHexChar (hexDigitChar m) = true
  | 0 => by decide
  | 1 => by decide
  | 2 => by decide
  | 3 => by decide
  | 4 => by decide
  | 5 => by decide
  | 6 => by decide
  | 7 => by decide
  | 8 => by decide
  | 9 => by decide
  | 10 => by decide
  | 11 => by decide
  | 12 => by decide
  | 13 => by decide
  | 14 => by decide
  | (_ + 15) => rfl

theorem isValidObjectId_objectIdOfNat (n : Nat) :
    isValidObjectId (objectIdOfNat n) = true := by
  simp only [isValidObjectId, objectIdOfNat, Bool.and_eq_true, beq_iff_eq]
  constructor
  · rfl
  · rw [List.all_eq_true]
    intro c hc
    obtain ⟨i, _, rfl⟩ := List.mem_map.mp hc
    exact isHexChar_hexDigitChar _

theorem findDocById_append_fresh (repo : List Document) (x : Document)
    (hfresh : ∀ e ∈ repo, e.id ≠ x.id) :
    findDocById (repo ++ [x]) x.id = some x := by
  induction repo with
  | nil => simp [findDocById]
  | cons d rest ih =>
    have hne : d.id ≠ x.id := hfresh d (by simp)
    simp only [List.cons_append, findDocById, if_neg hne]
    exact ih (fun e he => hfresh e (by simp [he]))

theorem strTruthy_generateS3KeyAt (t : Nat) (r name : String) :
    strTruthy (some (generateS3KeyAt t r name)) = true := by
  simp only [strTruthy, generateS3KeyAt, data_append, Bool.not_eq_true']
  rw [List.append_assoc, List.append_assoc, List.append_assoc, List.append_assoc]
  rfl

theorem resolveUploadBytes_ok (s : SysState) (path : Option String)
    (fileBuffer : Option Bytes) (msg : String) (b : Bytes)
    (h : resolveUploadBytes s path fileBuffer msg = Except.ok b) :
    fileBuffer = some b ∨
      (fileBuffer = none ∧ ∃ p, path = some p ∧ lookupStore s.fsStore p = some b) := by
  cases fileBuffer with
  | some b' =>
    left
    simp only [resolveUploadBytes, Except.ok.injEq] at h
    rw [h]
  | none =>
    right
    cases path with
    | none => simp [resolveUploadBytes] at h
    | some p =>
      refine ⟨rfl, p, rfl, ?_⟩
      simp only [resolveUploadBytes] at h
      by_cases he : p.data.isEmpty = true
      · simp [he] at h
      · rw [if_neg he] at h
        cases hl : lookupStore s.fsStore p with
        | none => simp [fsReadFile, hl] at h
        | some v =>
          simp only [fsReadFile, hl, Except.ok.injEq] at h
          rw [h]

theorem suppliedContent_eq_of_resolve (cfg : StorageType) (hcfg : cfg ≠ StorageType.filesystem)
    (s : SysState) (path : Option String) (fileBuffer : Option Bytes)
    (msg : String) (b B : Bytes)
    (hres : resolveUploadBytes s path fileBuffer msg = Except.ok b)
    (hB : suppliedContent cfg s path fileBuffer = some B) : B = b := by
  rcases resolveUploadBytes_ok s path fileBuffer msg b hres with hfb | ⟨hfb, p, hp, hl⟩
  · subst hfb
    cases cfg <;> simp_all [suppliedContent]
  · subst hfb; subst hp
    cases cfg <;> simp_all [suppliedContent]

/-- C1: Round-trip: for every backend mode and every content supplied as
required by that mode (a path whose file holds bytes B, or an in-memory
buffer B), if `createDocument` succeeds and returns a record with id i
and the active backend configuration is unchanged, then
`getDocumentContent i` succeeds and its content is exactly B (the
UTF-8-decoded text of the supplied bytes). -/
theorem create_then_getContent_roundtrip
    (cfg : StorageType) (s : SysState) (name : String)
    (path : Option String) (fileBuffer : Option Bytes) (B : Bytes)
    (s' : SysState) (doc : Document)
    (hfresh : ∀ e ∈ s.repo, e.id ≠ objectIdOfNat s.nextId)
    (hB : suppliedContent cfg s path fileBuffer = some B)
    (hc : createDocument cfg s name path fileBuffer = (s', Except.ok doc)) :
    getDocumentContent cfg s' doc.id = (s', Except.ok (doc, B)) := by
  cases cfg with
  | s3 =>
    simp only [createDocument] at hc
    cases hres : resolveUploadBytes s path fileBuffer
        "Either path or fileBuffer must be provided for S3 storage" with
    | error e => rw [hres] at hc; simp at hc
    | ok b =>
      rw [hres] at hc
      have hBb : B = b :=
        suppliedContent_eq_of_resolve StorageType.s3 (by decide) s path fileBuffer _ b B hres hB
      subst hBb
      by_cases hok : s.s3Ok = true
      · simp only [s3UploadFile, hok, if_true, saveDoc] at hc
        simp only [Prod.mk.injEq, Except.ok.injEq] at hc
        obtain ⟨rfl, rfl⟩ := hc
        have hfind := findDocById_append_fresh s.repo
          { name := name, s3Key := some (generateS3KeyAt s.now s.rand name),
            id := objectIdOfNat s.nextId, createdAt := s.now } hfresh
        simp only [getDocumentContent, getDocumentById, isValidObjectId_objectIdOfNat,
          if_true, hfind, retrieveContent, strTruthy_generateS3KeyAt, and_true,
          s3DownloadFile, hok, Option.getD_some, lookupStore_cons_self]
      · simp only [s3UploadFile, hok, if_false] at hc
        simp at hc
  | mongodb =>
    simp only [createDocument] at hc
    cases hres : resolveUploadBytes s path fileBuffer
        "Either path or fileBuffer must be provided for MongoDB storage" with
    | error e => rw [hres] at hc; simp at hc
    | ok b =>
      rw [hres] at hc
      have hBb : B = b :=
        suppliedContent_eq_of_resolve StorageType.mongodb (by decide) s path fileBuffer _ b B hres hB
      subst hBb
      simp only [saveDoc, Prod.mk.injEq, Except.ok.injEq] at hc
      obtain ⟨rfl, rfl⟩ := hc
      have hfind := findDocById_append_fresh s.repo
        { name := name, buffer := some B, id := objectIdOfNat s.nextId, createdAt := s.now }
        hfresh
      simp only [getDocumentContent, getDocumentById, isValidObjectId_objectIdOfNat,
        if_true, retrieveContent]
      simp [hfind]
  | filesystem =>
    cases path with
    | none => simp [createDocument] at hc
    | some p =>
      by_cases hemp : p.data.isEmpty = true
      · simp [createDocument, hemp] at hc
      · simp only [suppliedContent] at hB
        simp only [createDocument, hemp, if_false, saveDoc, Prod.mk.injEq,
          Except.ok.injEq] at hc
        obtain ⟨rfl, rfl⟩ := hc
        have hfind := findDocById_append_fresh s.repo
          { name := name, path := some p, id := objectIdOfNat s.nextId, createdAt := s.now }
          hfresh
        simp only [getDocumentContent, getDocumentById, isValidObjectId_objectIdOfNat,
          if_true, hfind, retrieveContent, strTruthy]
        simp [hfind, strTruthy, hemp, fsReadFile, hB]

theorem findDocById_eq_none (repo : List Document) (id : String)
    (h : ∀ d ∈ repo, d.id ≠ id) : findDocById repo id = none := by
  induction repo with
  | nil => rfl
  | cons d rest ih =>
    simp only [findDocById, if_neg (h d (by simp))]
    exact ih (fun e he => h e (by simp [he]))

theorem removeKey_of_absent (st : List (String × Bytes)) (k : String)
    (h : lookupStore st k = none) : removeKey st k = st := by
  induction st with
  | nil => rfl
  | cons kv rest ih =>
    by_cases hk : kv.1 = k
    · rw [← hk] at h
      simp [lookupStore, hk] at h
    · simp only [lookupStore, if_neg hk] at h
      simp [removeKey, hk] at ih ⊢
      exact ih h

/-- Characterization of every successful `createDocument` run: the saved
record and output state per backend branch. -/
theorem createDocument_ok_cases
    (cfg : StorageType) (s : SysState) (name : String) (path : Option String)
    (fileBuffer : Option Bytes) (s' : SysState) (doc : Document)
    (hc : createDocument cfg s name path fileBuffer = (s', Except.ok doc)) :
    (cfg = StorageType.s3 ∧ s.s3Ok = true ∧ ∃ b,
        resolveUploadBytes s path fileBuffer
          "Either path or fileBuffer must be provided for S3 storage" = Except.ok b ∧
        doc = { name := name, s3Key := some (generateS3KeyAt s.now s.rand name),
                id := objectIdOfNat s.nextId, createdAt := s.now } ∧
        s' = { s with
                s3Store := (generateS3KeyAt s.now s.rand name, b) ::
                  removeKey s.s3Store (generateS3KeyAt s.now s.rand name),
                repo := s.repo ++ [doc], nextId := s.nextId + 1 }) ∨
    (cfg = StorageType.mongodb ∧ ∃ b,
        resolveUploadBytes s path fileBuffer
          "Either path or fileBuffer must be provided for MongoDB storage" = Except.ok b ∧
        doc = { name := name, buffer := some b,
                id := objectIdOfNat s.nextId, createdAt := s.now } ∧
        s' = { s with repo := s.repo ++ [doc], nextId := s.nextId + 1 }) ∨
    (cfg = StorageType.filesystem ∧ ∃ p, path = some p ∧ p.data.isEmpty = false ∧
        doc = { name := name, path := some p,
                id := objectIdOfNat s.nextId, createdAt := s.now } ∧
        s' = { s with repo := s.repo ++ [doc], nextId := s.nextId + 1 }) := by
  cases cfg with
  | s3 =>
    left
    simp only [createDocument] at hc
    cases hres : resolveUploadBytes s path fileBuffer
        "Either path or fileBuffer must be provided for S3 storage" with
    | error e => rw [hres] at hc; simp at hc
    | ok b =>
      rw [hres] at hc
      by_cases hok : s.s3Ok = true
      · simp only [s3UploadFile, hok, if_true, saveDoc, Prod.mk.injEq, Except.ok.injEq] at hc
        obtain ⟨rfl, rfl⟩ := hc
        exact ⟨rfl, hok, b, rfl, rfl, by rw [hok]⟩
      · simp only [s3UploadFile, hok, if_false] at hc
        simp at hc
  | mongodb =>
    right; left
    simp only [createDocument] at hc
    cases hres : resolveUploadBytes s path fileBuffer
        "Either path or fileBuffer must be provided for MongoDB storage" with
    | error e => rw [hres] at hc; simp at hc
    | ok b =>
      rw [hres] at hc
      simp only [saveDoc, Prod.mk.injEq, Except.ok.injEq] at hc
      obtain ⟨rfl, rfl⟩ := hc
      exact ⟨rfl, b, rfl, rfl, rfl⟩
  | filesystem =>
    right; right
    cases path with
    | none => simp [createDocument] at hc
    | some p =>
      by_cases hemp : p.data.isEmpty = true
      · simp [createDocument, hemp] at hc
      · simp only [createDocument, hemp, if_false, saveDoc, Prod.mk.injEq,
          Except.ok.injEq] at hc
        obtain ⟨rfl, rfl⟩ := hc
        exact ⟨rfl, p, rfl, by simpa using hemp, rfl, rfl⟩

/-- C2: Delete atomicity for ObjectStorage: with the active backend
ObjectStorage and a record whose s3Key is populated, a failing remote
delete makes `deleteDocument` fail with the wrapped DeletionFailed-style
error, aborting with the whole store state (and hence the metadata
record) unchanged; when the remote delete succeeds, both the remote
object and the metadata record are gone. -/
theorem deleteDocument_objectStorage_atomicity
    (s : SysState) (id : String) (d : Document)
    (hfind : getDocumentById s id = some d)
    (hkey : strTruthy d.s3Key = true) :
    (s.s3Ok = false →
      deleteDocument StorageType.s3 s id =
        (s, Except.error ("Failed to delete document: " ++
          ("Failed to delete file from S3: " ++ s3TransportErr)))) ∧
    (s.s3Ok = true →
      (deleteDocument StorageType.s3 s id).2 = Except.ok () ∧
      lookupStore (deleteDocument StorageType.s3 s id).1.s3Store (d.s3Key.getD "") = none ∧
      ∀ e ∈ (deleteDocument StorageType.s3 s id).1.repo, e.id ≠ d.id) := by
  constructor
  · intro hok
    simp [deleteDocument, hfind, removeContent, hkey, s3DeleteFile, hok]
  · intro hok
    simp only [deleteDocument, hfind, removeContent, hkey, eq_self_iff_true,
      and_self, true_and, and_true, if_true, s3DeleteFile, hok]
    refine ⟨lookupStore_removeKey_self _ _, ?_⟩
    intro e he
    simp only [List.mem_filter] at he
    exact bne_iff_ne.mp he.2

/-- C3: Delete best-effort for Filesystem: with the active backend
Filesystem and a record whose path is populated but whose file is
already absent, `deleteDocument` swallows the unlink failure and still
deletes the metadata record: it succeeds, leaves the filesystem as it
was, and afterwards no record with that id exists. -/
theorem deleteDocument_filesystem_best_effort
    (s : SysState) (id : String) (d : Document)
    (hfind : getDocumentById s id = some d)
    (hpath : strTruthy d.path = true)
    (habsent : lookupStore s.fsStore (d.path.getD "") = none) :
    deleteDocument StorageType.filesystem s id =
      ({ s with repo := s.repo.filter (fun e => e.id != d.id) }, Except.ok ()) ∧
    ∀ e ∈ (deleteDocument StorageType.filesystem s id).1.repo, e.id ≠ d.id := by
  have hrm := removeKey_of_absent s.fsStore (d.path.getD "") habsent
  have hc1 : ¬(StorageType.filesystem = StorageType.s3 ∧ strTruthy d.s3Key = true) := by
    simp
  have hc2 : ¬(StorageType.filesystem = StorageType.mongodb) := by simp
  constructor
  · simp only [deleteDocument, hfind, removeContent, if_neg hc1, if_neg hc2,
      if_pos hpath, hrm]
  · intro e he
    simp only [deleteDocument, hfind, removeContent, if_neg hc1, if_neg hc2,
      if_pos hpath, hrm, List.mem_filter] at he
    exact bne_iff_ne.mp he.2

/-- C4: Locator invariant: every record produced by a successful
`createDocument` has exactly one populated locator field, and it is the
one corresponding to the backend active at creation time: s3Key under
ObjectStorage, buffer under EmbeddedBlob/MongoDB, path under
Filesystem. -/
theorem createDocument_locator_invariant
    (cfg : StorageType) (s : SysState) (name : String) (path : Option String)
    (fileBuffer : Option Bytes) (s' : SysState) (doc : Document)
    (hc : createDocument cfg s name path fileBuffer = (s', Except.ok doc)) :
    locatorCount doc = 1 ∧
    (cfg = StorageType.s3 →
      doc.s3Key.isSome = true ∧ doc.path = none ∧ doc.buffer = none) ∧
    (cfg = StorageType.mongodb →
      doc.buffer.isSome = true ∧ doc.path = none ∧ doc.s3Key = none) ∧
    (cfg = StorageType.filesystem →
      doc.path.isSome = true ∧ doc.buffer = none ∧ doc.s3Key = none) := by
  rcases createDocument_ok_cases cfg s name path fileBuffer s' doc hc with
    ⟨hcfg, _, b, _, hdoc, _⟩ | ⟨hcfg, b, _, hdoc, _⟩ | ⟨hcfg, p, _, _, hdoc, _⟩ <;>
    subst hcfg <;> subst hdoc <;> simp [locatorCount]

/-- The bytes of the text "hello", used by the concrete example runs. -/
def exNoteBytes : Bytes := [104, 101, 108, 108, 111]

/-- A concrete starting state: one file on disk, healthy transport,
empty record store. -/
def exFsState : SysState := { fsStore := [("/tmp/note.txt", exNoteBytes)] }

/-- The record produced by the concrete Filesystem create on `exFsState`. -/
def exFsDoc : Document :=
  { id := objectIdOfNat 0, name := "note.txt", path := some "/tmp/note.txt" }

/-- The state after the concrete Filesystem create on `exFsState`. -/
def exFsState' : SysState := { exFsState with repo := [exFsDoc], nextId := 1 }

/-- C5 counterexample: the claim "a record created under one backend is
unreadable (NoValidLocation) once the active backend changes" is false
for Filesystem-created records: this record was created while
Filesystem was active, yet with the active backend switched to
EmbeddedBlob/MongoDB `getDocumentContent` still succeeds with the
file's bytes, via the ungated path branch. -/
theorem backend_switch_unreadability_counterexample :
    createDocument StorageType.filesystem exFsState "note.txt" (some "/tmp/note.txt") none =
      (exFsState', Except.ok exFsDoc) ∧
    getDocumentContent StorageType.mongodb exFsState' exFsDoc.id =
      (exFsState', Except.ok (exFsDoc, exNoteBytes)) ∧
    getDocumentContent StorageType.mongodb exFsState' exFsDoc.id ≠
      (exFsState', Except.error ("Failed to read document content: " ++ noValidLocationMsg)) := by
  refine ⟨rfl, rfl, ?_⟩
  rw [show getDocumentContent StorageType.mongodb exFsState' exFsDoc.id =
    (exFsState', Except.ok (exFsDoc, exNoteBytes)) from rfl]
  simp

/-- C5 (amended): retrieval dispatches on the fixed precedence over the
currently active backend, not on a per-record backend tag.  A record
created under ObjectStorage or EmbeddedBlob becomes unreadable once the
active backend differs from the creation-time one: `getDocumentContent`
fails with the NoValidLocation error (wrapped as a content-read
failure).  A record created under Filesystem, however, stays readable
under any active backend through the ungated path branch, as long as
its file still holds the original bytes. -/
theorem backend_switch_readability
    (b b' : StorageType) (s : SysState) (name : String) (path : Option String)
    (fileBuffer : Option Bytes) (s' : SysState) (doc : Document)
    (hfresh : ∀ e ∈ s.repo, e.id ≠ objectIdOfNat s.nextId)
    (hc : createDocument b s name path fileBuffer = (s', Except.ok doc))
    (hne : b' ≠ b) :
    ((b = StorageType.s3 ∨ b = StorageType.mongodb) →
      getDocumentContent b' s' doc.id =
        (s', Except.error ("Failed to read document content: " ++ noValidLocationMsg))) ∧
    (b = StorageType.filesystem →
      ∀ B, suppliedContent b s path fileBuffer = some B →
        getDocumentContent b' s' doc.id = (s', Except.ok (doc, B))) := by
  rcases createDocument_ok_cases b s name path fileBuffer s' doc hc with
    ⟨hcfg, hok, bb, hres, hdoc, hs'⟩ | ⟨hcfg, bb, hres, hdoc, hs'⟩ |
    ⟨hcfg, p, hp, hemp, hdoc, hs'⟩
  · subst hcfg; subst hdoc; subst hs'
    have hfind := findDocById_append_fresh s.repo
      { name := name, s3Key := some (generateS3KeyAt s.now s.rand name),
        id := objectIdOfNat s.nextId, createdAt := s.now } hfresh
    constructor
    · intro _
      simp only [getDocumentContent, getDocumentById, isValidObjectId_objectIdOfNat,
        if_true, retrieveContent]
      simp [hfind, hne, strTruthy]
    · intro hfs
      exact absurd hfs (by decide)
  · subst hcfg; subst hdoc; subst hs'
    have hfind := findDocById_append_fresh s.repo
      { name := name, buffer := some bb,
        id := objectIdOfNat s.nextId, createdAt := s.now } hfresh
    constructor
    · intro _
      simp only [getDocumentContent, getDocumentById, isValidObjectId_objectIdOfNat,
        if_true, retrieveContent]
      simp [hfind, hne, strTruthy]
    · intro hfs
      exact absurd hfs (by decide)
  · subst hcfg; subst hp; subst hdoc; subst hs'
    have hfind := findDocById_append_fresh s.repo
      { name := name, path := some p,
        id := objectIdOfNat s.nextId, createdAt := s.now } hfresh
    constructor
    · intro hor
      rcases hor with h | h <;> exact absurd h (by decide)
    · intro _ B hB
      simp only [suppliedContent] at hB
      simp only [getDocumentContent, getDocumentById, isValidObjectId_objectIdOfNat,
        if_true, retrieveContent]
      simp [hfind, strTruthy, hemp, fsReadFile, hB]

/-- The record a successful Filesystem-mode create persists: only the
path locator is set, id and timestamp come from the store. -/
def fsCreatedDoc (s : SysState) (name p : String) : Document :=
  { id := objectIdOfNat s.nextId, name := name, path := some p, createdAt := s.now }

/-- C6: Filesystem create precondition: a buffer-only call while the
Filesystem backend is active fails with the InvalidInput error naming
the required path field, leaving the state (and hence the record store)
untouched and reading nothing; a Filesystem create with a non-empty
path succeeds, stores the record with exactly that path set, and
touches neither the filesystem nor any content (the result is the same
explicit record for every fileBuffer argument). -/
theorem createDocument_filesystem_requires_path
    (s : SysState) (name : String) (fb : Bytes) :
    createDocument StorageType.filesystem s name none (some fb) =
      (s, Except.error "Path must be provided for filesystem storage") ∧
    (∀ p : String, p.data.isEmpty = false → ∀ fb' : Option Bytes,
      createDocument StorageType.filesystem s name (some p) fb' =
        ({ s with repo := s.repo ++ [fsCreatedDoc s name p], nextId := s.nextId + 1 },
         Except.ok (fsCreatedDoc s name p))) := by
  constructor
  · rfl
  · intro p hp fb'
    simp [createDocument, hp, saveDoc, fsCreatedDoc]

/-- C7: NotFound on read: for every id string for which no record
exists, `getDocumentContent` fails with the NotFound error, and a
syntactically malformed id (one `new ObjectId` rejects) degrades to the
very same NotFound regardless of the store contents — absence of a
record is indistinguishable from a bad id at this layer. -/
theorem getContent_absent_id_not_found
    (cfg : StorageType) (s : SysState) (id : String) :
    ((∀ d ∈ s.repo, d.id ≠ id) →
      getDocumentContent cfg s id = (s, Except.error "Document not found")) ∧
    (isValidObjectId id = false →
      getDocumentContent cfg s id = (s, Except.error "Document not found")) := by
  constructor
  · intro habs
    have hnone := findDocById_eq_none s.repo id habs
    by_cases hv : isValidObjectId id = true
    · simp [getDocumentContent, getDocumentById, hv, hnone]
    · simp [getDocumentContent, getDocumentById, hv]
  · intro hv
    simp [getDocumentContent, getDocumentById, hv]

/-- C8: Listing order: `getAllDocuments` returns every stored record
(a permutation of the store) sorted by creation time with the most
recent first; on an empty store it returns the empty list rather than
an error; and for three records created at times t1 < t2 < t3 (stored
in creation order) the output is exactly [t3, t2, t1]. -/
theorem getAllDocuments_listing_order :
    (∀ s : SysState, s.repo = [] → getAllDocuments s = []) ∧
    (∀ s : SysState, (getAllDocuments s).Perm s.repo ∧
      List.Sorted byNewest (getAllDocuments s)) ∧
    (∀ (s : SysState) (d1 d2 d3 : Document), s.repo = [d1, d2, d3] →
      d1.createdAt < d2.createdAt → d2.createdAt < d3.createdAt →
      getAllDocuments s = [d3, d2, d1]) := by
  refine ⟨?_, ?_, ?_⟩
  · intro s h
    simp [getAllDocuments, h]
  · intro s
    exact ⟨List.perm_insertionSort byNewest s.repo,
      List.sorted_insertionSort byNewest s.repo⟩
  · intro s d1 d2 d3 hrepo h12 h23
    have n23 : ¬ byNewest d2 d3 := by
      simp only [byNewest, not_le]; exact h23
    have n13 : ¬ byNewest d1 d3 := by
      simp only [byNewest, not_le]; exact Nat.lt_trans h12 h23
    have n12 : ¬ byNewest d1 d2 := by
      simp only [byNewest, not_le]; exact h12
    simp [getAllDocuments, hrepo, List.insertionSort, List.orderedInsert,
      n23, n13, n12]

theorem string_append_assoc (a b c : String) : a ++ b ++ c = a ++ (b ++ c) := by
  obtain ⟨la⟩ := a
  obtain ⟨lb⟩ := b
  obtain ⟨lc⟩ := c
  exact congrArg String.mk (List.append_assoc la lb lc)

/-- C9: Key generation shape and sanitization: every generated key
starts with the fixed namespace `documents/`, ends with the sanitized
copy of the original name (after the time-based and random components),
and the sanitized portion contains only characters from
[A-Za-z0-9.-] or the replacement `_` — in particular no spaces. -/
theorem generateS3Key_shape (t : Nat) (r name : String) :
    (∃ rest : String, generateS3KeyAt t r name = "documents/" ++ rest) ∧
    (∃ stem : String, generateS3KeyAt t r name = stem ++ sanitizeName name) ∧
    (∀ c ∈ (sanitizeName name).data, isAllowedKeyChar c = true ∨ c = '_') := by
  refine ⟨⟨toString t ++ "-" ++ r ++ "-" ++ sanitizeName name, ?_⟩,
    ⟨"documents/" ++ toString t ++ "-" ++ r ++ "-", rfl⟩, ?_⟩
  · simp only [generateS3KeyAt, string_append_assoc]
  · intro c hc
    obtain ⟨c0, _, rfl⟩ := List.mem_map.mp hc
    by_cases h : isAllowedKeyChar c0 = true
    · left
      simp only [sanitizeChar, if_pos h]
      exact h
    · right
      simp only [sanitizeChar, if_neg h]

/-- C10: Implicit buffer precedence in create: under ObjectStorage or
EmbeddedBlob, when both a path and a fileBuffer are supplied the
fileBuffer wins — the run is identical to one given no path at all (so
the path is never read), and the persisted content (the uploaded S3
object, respectively the stored inline buffer) is exactly the
fileBuffer's bytes. -/
theorem createDocument_buffer_precedence
    (b : StorageType) (s : SysState) (name p : String) (fb : Bytes)
    (hb : b = StorageType.s3 ∨ b = StorageType.mongodb) :
    createDocument b s name (some p) (some fb) =
      createDocument b s name none (some fb) ∧
    (∀ s' doc, createDocument b s name (some p) (some fb) = (s', Except.ok doc) →
      (b = StorageType.s3 →
        ∃ k, doc.s3Key = some k ∧ lookupStore s'.s3Store k = some fb) ∧
      (b = StorageType.mongodb → doc.buffer = some fb)) := by
  rcases hb with rfl | rfl
  · refine ⟨rfl, ?_⟩
    intro s' doc hc
    rcases createDocument_ok_cases _ s name (some p) (some fb) s' doc hc with
      ⟨_, hok, bb, hres, hdoc, hs'⟩ | ⟨h, _⟩ | ⟨h, _⟩
    · have hbb : fb = bb := by
        simpa [resolveUploadBytes] using hres
      subst hbb; subst hdoc; subst hs'
      refine ⟨fun _ => ⟨generateS3KeyAt s.now s.rand name, rfl, ?_⟩, fun h => by simp at h⟩
      exact lookupStore_cons_self _ _ _
    · simp at h
    · simp at h
  · refine ⟨rfl, ?_⟩
    intro s' doc hc
    rcases createDocument_ok_cases _ s name (some p) (some fb) s' doc hc with
      ⟨h, _⟩ | ⟨_, bb, hres, hdoc, hs'⟩ | ⟨h, _⟩
    · simp at h
    · have hbb : fb = bb := by
        simpa [resolveUploadBytes] using hres
      subst hbb; subst hdoc
      exact ⟨fun h => by simp at h, fun _ => rfl⟩
    · simp at h

/-! ### Concrete example states for the witnesses -/

/-- A completely fresh system state (all defaults). -/
def exEmptyState : SysState := {}

/-- A record stored in S3 mode, used by the delete-atomicity witness. -/
def exS3Doc : Document :=
  { id := objectIdOfNat 0, name := "a.txt", s3Key := some "documents/1-ab-a.txt" }

/-- A state holding `exS3Doc` whose S3 transport is down. -/
def exS3State : SysState :=
  { s3Store := [("documents/1-ab-a.txt", exNoteBytes)], s3Ok := false,
    repo := [exS3Doc], nextId := 1 }

/-- A filesystem-backed record whose file is already gone. -/
def exFs2Doc : Document :=
  { id := objectIdOfNat 3, name := "gone.txt", path := some "/tmp/gone.txt" }

/-- A state holding `exFs2Doc` with an empty filesystem. -/
def exFs2State : SysState := { repo := [exFs2Doc], nextId := 4 }

/-- The record a MongoDB-mode create of "hello" produces on the empty state. -/
def exMgDoc : Document :=
  { id := objectIdOfNat 0, name := "m.txt", buffer := some exNoteBytes }

/-- The state after that MongoDB-mode create. -/
def exMgState' : SysState := { repo := [exMgDoc], nextId := 1 }

/-- Three records with strictly increasing creation times. -/
def exD1 : Document := { id := objectIdOfNat 0, name := "a", createdAt := 1 }

/-- Second of the three listing-order records. -/
def exD2 : Document := { id := objectIdOfNat 1, name := "b", createdAt := 2 }

/-- Third of the three listing-order records. -/
def exD3 : Document := { id := objectIdOfNat 2, name := "c", createdAt := 3 }

/-- A store holding the three listing-order records in creation order. -/
def exListState : SysState := { repo := [exD1, exD2, exD3], nextId := 3 }

/-! ### Witnesses -/

/-- C1 witness: the round-trip theorem at a concrete Filesystem run. -/
theorem create_then_getContent_roundtrip_witness :
    getDocumentContent StorageType.filesystem exFsState' exFsDoc.id =
      (exFsState', Except.ok (exFsDoc, exNoteBytes)) :=
  create_then_getContent_roundtrip StorageType.filesystem exFsState "note.txt"
    (some "/tmp/note.txt") none exNoteBytes exFsState' exFsDoc
    (by decide) rfl rfl

/-- C2 witness: the atomicity theorem at a concrete failing remote delete. -/
theorem deleteDocument_objectStorage_atomicity_witness :
    deleteDocument StorageType.s3 exS3State exS3Doc.id =
      (exS3State, Except.error ("Failed to delete document: " ++
        ("Failed to delete file from S3: " ++ s3TransportErr))) :=
  (deleteDocument_objectStorage_atomicity exS3State exS3Doc.id exS3Doc rfl rfl).1 rfl

/-- C3 witness: the best-effort theorem at a concrete absent file. -/
theorem deleteDocument_filesystem_best_effort_witness :
    deleteDocument StorageType.filesystem exFs2State exFs2Doc.id =
      ({ exFs2State with repo := exFs2State.repo.filter (fun e => e.id != exFs2Doc.id) },
       Except.ok ()) :=
  (deleteDocument_filesystem_best_effort exFs2State exFs2Doc.id exFs2Doc rfl rfl rfl).1

/-- C4 witness: the locator invariant at a concrete Filesystem create. -/
theorem createDocument_locator_invariant_witness :
    locatorCount exFsDoc = 1 ∧
    (StorageType.filesystem = StorageType.s3 →
      exFsDoc.s3Key.isSome = true ∧ exFsDoc.path = none ∧ exFsDoc.buffer = none) ∧
    (StorageType.filesystem = StorageType.mongodb →
      exFsDoc.buffer.isSome = true ∧ exFsDoc.path = none ∧ exFsDoc.s3Key = none) ∧
    (StorageType.filesystem = StorageType.filesystem →
      exFsDoc.path.isSome = true ∧ exFsDoc.buffer = none ∧ exFsDoc.s3Key = none) :=
  createDocument_locator_invariant StorageType.filesystem exFsState "note.txt"
    (some "/tmp/note.txt") none exFsState' exFsDoc rfl

/-- C5 witness: the amended theorem at a concrete MongoDB-created record
read back while Filesystem is active: NoValidLocation. -/
theorem backend_switch_readability_witness :
    getDocumentContent StorageType.filesystem exMgState' exMgDoc.id =
      (exMgState', Except.error ("Failed to read document content: " ++ noValidLocationMsg)) :=
  (backend_switch_readability StorageType.mongodb StorageType.filesystem exEmptyState
    "m.txt" none (some exNoteBytes) exMgState' exMgDoc
    (by decide) rfl (by decide)).1 (Or.inr rfl)

/-- C6 witness: the precondition theorem at a concrete buffer-only call
and a concrete successful path call. -/
theorem createDocument_filesystem_requires_path_witness :
    createDocument StorageType.filesystem exEmptyState "x.txt" none (some exNoteBytes) =
      (exEmptyState, Except.error "Path must be provided for filesystem storage") ∧
    createDocument StorageType.filesystem exEmptyState "x.txt" (some "/tmp/x.txt")
        (some exNoteBytes) =
      ({ exEmptyState with
          repo := exEmptyState.repo ++ [fsCreatedDoc exEmptyState "x.txt" "/tmp/x.txt"],
          nextId := exEmptyState.nextId + 1 },
       Except.ok (fsCreatedDoc exEmptyState "x.txt" "/tmp/x.txt")) :=
  ⟨(createDocument_filesystem_requires_path exEmptyState "x.txt" exNoteBytes).1,
   (createDocument_filesystem_requires_path exEmptyState "x.txt" exNoteBytes).2
     "/tmp/x.txt" (by decide) (some exNoteBytes)⟩

/-- C7 witness: the NotFound theorem at a concrete malformed id over a
non-empty store. -/
theorem getContent_absent_id_not_found_witness :
    getDocumentContent StorageType.filesystem exFsState' "not-a-valid-objectid!!" =
      (exFsState', Except.error "Document not found") :=
  (getContent_absent_id_not_found StorageType.filesystem exFsState'
    "not-a-valid-objectid!!").2 (by decide)

/-- C8 witness: the listing-order theorem at three concrete records
created at times 1 < 2 < 3. -/
theorem getAllDocuments_listing_order_witness :
    getAllDocuments exListState = [exD3, exD2, exD1] :=
  getAllDocuments_listing_order.2.2 exListState exD1 exD2 exD3 rfl
    (by decide) (by decide)

/-- C9 witness: the sanitization part of the key-shape theorem at the
concrete character the space of "a b.txt" is replaced with. -/
theorem generateS3Key_shape_witness :
    isAllowedKeyChar '_' = true ∨ '_' = '_' :=
  (generateS3Key_shape 0 "abc" "a b.txt").2.2 '_' (by decide)

/-- C10 witness: the buffer-precedence theorem at a concrete MongoDB
create given both a path and a buffer. -/
theorem createDocument_buffer_precedence_witness :
    createDocument StorageType.mongodb exEmptyState "m.txt" (some "/tmp/whatever")
        (some exNoteBytes) =
      createDocument StorageType.mongodb exEmptyState "m.txt" none (some exNoteBytes) :=
  (createDocument_buffer_precedence StorageType.mongodb exEmptyState "m.txt"
    "/tmp/whatever" exNoteBytes (Or.inr rfl)).1

end DMS
